import Mathlib

/-!
Shallow embedding of `mcp_server/tools/drawing_api.py`: the `DrawingAPI`
class that bridges drawing commands to a VSCode-extension WebSocket
endpoint.  The object's mutable attributes (`file_path`, `vscode_port`,
`ws`) become an explicit state record; the filesystem (port marker
files) and the network (connect and send/receive outcomes) become an
explicit environment consulted by the translated methods; a `raise` is
an `Except.error` carrying the exception message; and every operation
additionally emits a trace of the network-visible actions it performed
(discovery probes, connection attempts, sends), so that claims about
"no network activity" or "exactly one reconnection attempt" are
statements about the trace.  Methods whose Python bodies fall through
several statements are split into one Lean definition per stage, named
after the stage; each definition's doc comment points at the statements
it translates.
-/

namespace DrawingApiModel

/-- JSON-like values carried in decoded responses.  The Python side
performs no arithmetic on numeric payloads, so `Int` is an adequate
carrier for the numbers the claims mention. -/
inductive JValue where
  | null
  | bool (b : Bool)
  | num (n : Int)
  | str (s : String)
  | arr (xs : List JValue)
  | obj (fields : List (String × JValue))
deriving Repr

/-- `@dataclass Circle` with its field order and the `color` default. -/
structure Circle where
  id : String
  x : Int
  y : Int
  radius : Int
  color : String := "#000000"
deriving Repr, DecidableEq

/-- `@dataclass Rectangle` with its field order and the `color` default. -/
structure Rectangle where
  id : String
  x : Int
  y : Int
  width : Int
  height : Int
  color : String := "#000000"
deriving Repr, DecidableEq

/-- `dataclasses.asdict` on a `Circle`: the payload dict in field order. -/
def Circle.asdict (c : Circle) : List (String × JValue) :=
  [("id", JValue.str c.id), ("x", JValue.num c.x), ("y", JValue.num c.y),
   ("radius", JValue.num c.radius), ("color", JValue.str c.color)]

/-- `dataclasses.asdict` on a `Rectangle`. -/
def Rectangle.asdict (r : Rectangle) : List (String × JValue) :=
  [("id", JValue.str r.id), ("x", JValue.num r.x), ("y", JValue.num r.y),
   ("width", JValue.num r.width), ("height", JValue.num r.height),
   ("color", JValue.str r.color)]

/-- The command dictionaries built by the façade methods, as a tagged
union keyed by the `type` field. -/
inductive Command where
  | get_active_file
  | set_file (file_path : String)
  | draw_circle (file_path : String) (data : Circle)
  | draw_rectangle (file_path : String) (data : Rectangle)
  | get_elements (file_path : String)
  | get_element_by_id (file_path : String) (id : String)
deriving Repr, DecidableEq

/-- The literal key/value pairs of the command dict each method builds,
in the order the Python source writes them (`asdict` preserves dataclass
field order). -/
def Command.fields : Command → List (String × JValue)
  | Command.get_active_file => [("type", JValue.str "get_active_file")]
  | Command.set_file fp =>
      [("type", JValue.str "set_file"), ("file_path", JValue.str fp)]
  | Command.draw_circle fp c =>
      [("type", JValue.str "draw_circle"), ("file_path", JValue.str fp),
       ("data", JValue.obj (Circle.asdict c))]
  | Command.draw_rectangle fp r =>
      [("type", JValue.str "draw_rectangle"), ("file_path", JValue.str fp),
       ("data", JValue.obj (Rectangle.asdict r))]
  | Command.get_elements fp =>
      [("type", JValue.str "get_elements"), ("file_path", JValue.str fp)]
  | Command.get_element_by_id fp i =>
      [("type", JValue.str "get_element_by_id"), ("file_path", JValue.str fp),
       ("data", JValue.obj [("id", JValue.str i)])]

/-- One candidate marker location probed by `_discover_vscode_port`, by
its observable outcome: the path does not exist, it exists but
`int(f.read().strip())` raises `ValueError`/`IOError`, or it exists and
parses as the integer `p`. -/
inductive Candidate where
  | missing
  | unreadable
  | port (p : Int)
deriving Repr, DecidableEq

/-- A live-or-dead WebSocket handle: `id` distinguishes distinct
`create_connection` results, `connected` is the library's `.connected`
flag. -/
structure WSHandle where
  id : Nat
  connected : Bool
deriving Repr, DecidableEq

/-- An exception value: Python raises bare `Exception(msg)` here, so
only the message is observable. -/
structure Exn where
  msg : String
deriving Repr, DecidableEq

/-- The outcome the environment assigns to the send/recv/decode block of
`_send_command`: either some step of it raises (`fault`, with the inner
exception text), or a response decodes, with the truthiness of its
`success` field, the value under `result` if that key is present, and
the value under `error` if that key is present. -/
inductive SendOutcome where
  | fault (msg : String)
  | reply (success : Bool) (result : Option JValue) (error : Option String)
deriving Repr

/-- The external world for one operation: the candidate marker files in
their fixed probe order, whether `create_connection` would succeed, the
identity of the handle it would return, and the send/receive outcome. -/
structure Env where
  cands : List Candidate
  connectOk : Bool
  freshId : Nat
  sendOutcome : SendOutcome
deriving Repr

/-- The mutable attributes of a `DrawingAPI` instance. -/
structure APIState where
  file_path : Option String
  vscode_port : Option Int
  ws : Option WSHandle
deriving Repr, DecidableEq

/-- Network-visible actions, recorded as a trace. -/
inductive Event where
  | discover
  | connectAttempt (port : Int)
  | send (cmd : Command)
deriving Repr, DecidableEq

/-- Python truthiness of `self.vscode_port` (`None` and `0` are falsy). -/
def portTruthy : Option Int → Bool
  | none => false
  | some p => p != 0

/-- Python truthiness of `self.ws and self.ws.connected`. -/
def wsConnected : Option WSHandle → Bool
  | none => false
  | some h => h.connected

/-- The first candidate that exists and parses as an integer, walking
the fixed probe order of `_discover_vscode_port`; `none` when every
candidate is missing or unparseable. -/
def discoverPort : List Candidate → Option Int
  | [] => none
  | Candidate.missing :: rest => discoverPort rest
  | Candidate.unreadable :: rest => discoverPort rest
  | Candidate.port p :: _ => some p

/-- `DrawingAPI._discover_vscode_port`: on success assigns
`self.vscode_port` and returns; on total failure only prints a warning,
leaving `self.vscode_port` unchanged.  Never raises (the per-candidate
`ValueError`/`IOError` is caught and skipped). -/
def discoverStep (cands : List Candidate) (s : APIState) : APIState × List Event :=
  (match discoverPort cands with
   | some p => { s with vscode_port := some p }
   | none => s,
   [Event.discover])

/-- The second half of `DrawingAPI._connect`, after its optional
re-discovery: give up silently when there is still no truthy port, else
make one `create_connection` attempt, storing the new handle on success
and `None` on failure.  `ev` is the trace accumulated so far. -/
def connectFrom (env : Env) (s : APIState) (ev : List Event) :
    APIState × List Event :=
  match s.vscode_port with
  | none => (s, ev)
  | some p =>
    if p == 0 then (s, ev)
    else if env.connectOk then
      ({ s with ws := some { id := env.freshId, connected := true } },
       ev ++ [Event.connectAttempt p])
    else ({ s with ws := none }, ev ++ [Event.connectAttempt p])

/-- `DrawingAPI._connect`: re-discovers first when the cached port is
falsy, then proceeds as `connectFrom`. -/
def connectStep (env : Env) (s : APIState) : APIState × List Event :=
  if portTruthy s.vscode_port then connectFrom env s []
  else
    connectFrom env (discoverStep env.cands s).1 (discoverStep env.cands s).2

/-- The last two statements of `DrawingAPI._ensure_connected`: after the
connection attempt, raise when still not connected. -/
def ensureAfterConnect (s2 : APIState) (ev : List Event) :
    Except Exn Unit × APIState × List Event :=
  if wsConnected s2.ws then (Except.ok (), s2, ev)
  else
    (Except.error { msg := "Failed to connect to VSCode extension WebSocket server." },
     s2, ev)

/-- The middle of `DrawingAPI._ensure_connected`, after its unconditional
re-discovery: raise when no truthy port was found, else `_connect` and
check the result. -/
def ensureAfterDiscover (env : Env) (s1 : APIState) (ev1 : List Event) :
    Except Exn Unit × APIState × List Event :=
  if portTruthy s1.vscode_port then
    ensureAfterConnect (connectStep env s1).1 (ev1 ++ (connectStep env s1).2)
  else
    (Except.error { msg := "VSCode extension WebSocket server not found. Make sure the extension is running." },
     s1, ev1)

/-- `DrawingAPI._ensure_connected`: return at once when a connected
handle is held; otherwise re-discover and reconnect. -/
def ensureConnected (env : Env) (s : APIState) :
    Except Exn Unit × APIState × List Event :=
  if wsConnected s.ws then (Except.ok (), s, [])
  else
    ensureAfterDiscover env (discoverStep env.cands s).1
      (discoverStep env.cands s).2

/-- The wrapper message of the catch-all `except` in `_send_command`. -/
def commFail (m : String) : String :=
  "Failed to communicate with VSCode extension: " ++ m

/-- The `try` block of `DrawingAPI._send_command`: send and receive; a
decoded truthy `success` unwraps `response.get("result", dict())`; a
falsy `success` raises with `response.get("error", "Unknown error")`,
and that raise — like any transport fault inside the `try` — is caught
by the catch-all, which closes and discards the handle
(`self.ws = None`) and re-raises with the wrapper text. -/
def sendFinish (env : Env) (cmd : Command) (s1 : APIState) (ev1 : List Event) :
    Except Exn JValue × APIState × List Event :=
  match env.sendOutcome with
  | SendOutcome.fault m =>
      (Except.error { msg := commFail m }, { s1 with ws := none },
       ev1 ++ [Event.send cmd])
  | SendOutcome.reply ok result err =>
      if ok then
        (Except.ok (result.getD (JValue.obj [])), s1, ev1 ++ [Event.send cmd])
      else
        (Except.error { msg := commFail (err.getD "Unknown error") },
         { s1 with ws := none }, ev1 ++ [Event.send cmd])

/-- `DrawingAPI._send_command`: `_ensure_connected` runs outside the
`try`, so its exceptions propagate unwrapped and leave the handle as the
connection stage left it; then the `try` block as `sendFinish`. -/
def sendCommand (env : Env) (cmd : Command) (s : APIState) :
    Except Exn JValue × APIState × List Event :=
  match ensureConnected env s with
  | (Except.error e, s1, ev1) => (Except.error e, s1, ev1)
  | (Except.ok _, s1, ev1) => sendFinish env cmd s1 ev1

/-- The exception raised by the `if not self.file_path` guards. -/
def noFileExn : Exn := { msg := "No file path set. Call set_file first." }

/-- `DrawingAPI.__init__`: null attributes, then one discovery; no
connection is made and nothing can raise. -/
def DrawingAPI.init (cands : List Candidate) : APIState × List Event :=
  discoverStep cands { file_path := none, vscode_port := none, ws := none }

/-- `DrawingAPI.set_file`: assigns `self.file_path` first, then sends
`set_file` and returns whatever `_send_command` does. -/
def DrawingAPI.set_file (env : Env) (s : APIState) (file_path : String) :
    Except Exn JValue × APIState × List Event :=
  sendCommand env (Command.set_file file_path)
    { s with file_path := some file_path }

/-- `DrawingAPI.draw_circle`: guard on a truthy `self.file_path`, build
the `Circle` payload (color defaulted), send. -/
def DrawingAPI.draw_circle (env : Env) (s : APIState) (id : String)
    (x y radius : Int) (color : String := "#000000") :
    Except Exn JValue × APIState × List Event :=
  match s.file_path with
  | none => (Except.error noFileExn, s, [])
  | some fp =>
    if fp.isEmpty then (Except.error noFileExn, s, [])
    else
      sendCommand env
        (Command.draw_circle fp
          { id := id, x := x, y := y, radius := radius, color := color }) s

/-- `DrawingAPI.draw_rectangle`: same shape as `draw_circle`. -/
def DrawingAPI.draw_rectangle (env : Env) (s : APIState) (id : String)
    (x y width height : Int) (color : String := "#000000") :
    Except Exn JValue × APIState × List Event :=
  match s.file_path with
  | none => (Except.error noFileExn, s, [])
  | some fp =>
    if fp.isEmpty then (Except.error noFileExn, s, [])
    else
      sendCommand env
        (Command.draw_rectangle fp
          { id := id, x := x, y := y, width := width, height := height,
            color := color }) s

/-- The final line of `get_elements`:
`result if isinstance(result, list) else []`. -/
def coerceToList (r : JValue) : JValue :=
  match r with
  | JValue.arr xs => JValue.arr xs
  | _ => JValue.arr []

/-- `DrawingAPI.get_elements`: guard, send, coerce non-list results to
the empty list. -/
def DrawingAPI.get_elements (env : Env) (s : APIState) :
    Except Exn JValue × APIState × List Event :=
  match s.file_path with
  | none => (Except.error noFileExn, s, [])
  | some fp =>
    if fp.isEmpty then (Except.error noFileExn, s, [])
    else
      match sendCommand env (Command.get_elements fp) s with
      | (Except.ok r, s1, ev) => (Except.ok (coerceToList r), s1, ev)
      | (Except.error e, s1, ev) => (Except.error e, s1, ev)

/-- `DrawingAPI.get_element_by_id`: guard, send, return the unwrapped
result unchanged (a JSON `null` result passes through as the absence
marker). -/
def DrawingAPI.get_element_by_id (env : Env) (s : APIState) (id : String) :
    Except Exn JValue × APIState × List Event :=
  match s.file_path with
  | none => (Except.error noFileExn, s, [])
  | some fp =>
    if fp.isEmpty then (Except.error noFileExn, s, [])
    else sendCommand env (Command.get_element_by_id fp id) s

/-- Modelled from the spec: the editor-side handler of
`get_element_by_id` lives in the VSCode extension, which is not under
the bridge's source; per the spec a missing id is "not an error, an
explicit empty/absent result", i.e. the service replies with
`success=true` and a null result. -/
def notFoundReply : SendOutcome :=
  SendOutcome.reply true (some JValue.null) none

/-- The all-attributes-null state a fresh instance starts from. -/
def initState : APIState :=
  { file_path := none, vscode_port := none, ws := none }

/-- A state with a target set and a live connection, for witnesses. -/
def connectedState : APIState :=
  { file_path := some "/tmp/x.luke", vscode_port := some 9931,
    ws := some { id := 7, connected := true } }

/-- An environment whose service rejects the command with
"duplicate id", for witnesses. -/
def dupIdEnv : Env :=
  { cands := [Candidate.port 9931], connectOk := true, freshId := 0,
    sendOutcome := SendOutcome.reply false none (some "duplicate id") }

theorem discoverStep_snd (cands : List Candidate) (s : APIState) :
    (discoverStep cands s).2 = [Event.discover] := by
  unfold discoverStep
  cases discoverPort cands <;> rfl

theorem discoverStep_file_path (cands : List Candidate) (s : APIState) :
    (discoverStep cands s).1.file_path = s.file_path := by
  unfold discoverStep
  cases discoverPort cands <;> rfl

theorem discoverStep_ws (cands : List Candidate) (s : APIState) :
    (discoverStep cands s).1.ws = s.ws := by
  unfold discoverStep
  cases discoverPort cands <;> rfl

theorem discoverStep_eq_of_some (cands : List Candidate) (s : APIState)
    (p : Int) (h : discoverPort cands = some p) :
    discoverStep cands s = ({ s with vscode_port := some p }, [Event.discover]) := by
  unfold discoverStep
  rw [h]

theorem discoverStep_eq_of_none (cands : List Candidate) (s : APIState)
    (h : discoverPort cands = none) :
    discoverStep cands s = (s, [Event.discover]) := by
  unfold discoverStep
  rw [h]

theorem connectFrom_file_path (env : Env) (s : APIState) (ev : List Event) :
    (connectFrom env s ev).1.file_path = s.file_path := by
  unfold connectFrom
  cases s.vscode_port with
  | none => rfl
  | some p =>
    dsimp only
    split_ifs <;> rfl

theorem connectStep_file_path (env : Env) (s : APIState) :
    (connectStep env s).1.file_path = s.file_path := by
  unfold connectStep
  split_ifs
  · exact connectFrom_file_path env s []
  · rw [connectFrom_file_path]
    exact discoverStep_file_path env.cands s

theorem connectFrom_eq_of_port (env : Env) (s : APIState) (ev : List Event)
    (p : Int) (hport : s.vscode_port = some p) (hp : p ≠ 0)
    (hok : env.connectOk = true) :
    connectFrom env s ev =
      ({ s with ws := some { id := env.freshId, connected := true } },
       ev ++ [Event.connectAttempt p]) := by
  unfold connectFrom
  rw [hport]
  simp [hp, hok]

theorem connectStep_eq_of_truthy (env : Env) (s : APIState) (p : Int)
    (hport : s.vscode_port = some p) (hp : p ≠ 0) (hok : env.connectOk = true) :
    connectStep env s =
      ({ s with ws := some { id := env.freshId, connected := true } },
       [Event.connectAttempt p]) := by
  have ht : portTruthy s.vscode_port = true := by
    rw [hport]; simpa [portTruthy] using hp
  unfold connectStep
  rw [if_pos ht, connectFrom_eq_of_port env s [] p hport hp hok]
  rfl

theorem ensureAfterDiscover_file_path (env : Env) (s1 : APIState)
    (ev1 : List Event) :
    (ensureAfterDiscover env s1 ev1).2.1.file_path = s1.file_path := by
  unfold ensureAfterDiscover ensureAfterConnect
  split_ifs <;> simp [connectStep_file_path]

theorem ensureConnected_of_connected (env : Env) (s : APIState)
    (h : wsConnected s.ws = true) :
    ensureConnected env s = (Except.ok (), s, []) := by
  unfold ensureConnected
  rw [if_pos h]

theorem ensureConnected_file_path (env : Env) (s : APIState) :
    (ensureConnected env s).2.1.file_path = s.file_path := by
  unfold ensureConnected
  split_ifs
  · rfl
  · rw [ensureAfterDiscover_file_path]
    exact discoverStep_file_path env.cands s

theorem ensureConnected_reconnect (env : Env) (s : APIState) (p : Int)
    (hws : s.ws = none) (hdisc : discoverPort env.cands = some p)
    (hp : p ≠ 0) (hok : env.connectOk = true) :
    ensureConnected env s =
      (Except.ok (),
       { s with vscode_port := some p,
                ws := some { id := env.freshId, connected := true } },
       [Event.discover, Event.connectAttempt p]) := by
  have ht : portTruthy (some p) = true := by simpa [portTruthy] using hp
  unfold ensureConnected
  rw [if_neg (by simp [hws, wsConnected])]
  rw [discoverStep_eq_of_some env.cands s p hdisc]
  unfold ensureAfterDiscover
  rw [if_pos ht]
  rw [connectStep_eq_of_truthy env _ p rfl hp hok]
  unfold ensureAfterConnect
  dsimp only
  rw [if_pos (by rfl)]
  rfl

theorem sendFinish_file_path (env : Env) (cmd : Command) (s1 : APIState)
    (ev1 : List Event) :
    (sendFinish env cmd s1 ev1).2.1.file_path = s1.file_path := by
  unfold sendFinish
  cases env.sendOutcome with
  | fault m => rfl
  | reply ok r err => cases ok <;> rfl

theorem sendFinish_events (env : Env) (cmd : Command) (s1 : APIState)
    (ev1 : List Event) :
    (sendFinish env cmd s1 ev1).2.2 = ev1 ++ [Event.send cmd] := by
  unfold sendFinish
  cases env.sendOutcome with
  | fault m => rfl
  | reply ok r err => cases ok <;> rfl

theorem sendCommand_file_path (env : Env) (cmd : Command) (s : APIState) :
    (sendCommand env cmd s).2.1.file_path = s.file_path := by
  unfold sendCommand
  have hE := ensureConnected_file_path env s
  rcases hEq : ensureConnected env s with ⟨e, s1, ev1⟩
  rw [hEq] at hE
  cases e with
  | error ex => simpa using hE
  | ok u => rw [sendFinish_file_path]; simpa using hE

theorem sendCommand_connected (env : Env) (cmd : Command) (s : APIState)
    (h : wsConnected s.ws = true) :
    sendCommand env cmd s = sendFinish env cmd s [] := by
  unfold sendCommand
  rw [ensureConnected_of_connected env s h]

theorem sendCommand_events_of_ok (env : Env) (cmd : Command) (s s1 : APIState)
    (ev1 : List Event) (h : ensureConnected env s = (Except.ok (), s1, ev1)) :
    (sendCommand env cmd s).2.2 = ev1 ++ [Event.send cmd] := by
  unfold sendCommand
  rw [h]
  exact sendFinish_events env cmd s1 ev1

theorem discoverPort_all_fail (cands : List Candidate)
    (h : ∀ c ∈ cands, c = Candidate.missing ∨ c = Candidate.unreadable) :
    discoverPort cands = none := by
  induction cands with
  | nil => rfl
  | cons c rest ih =>
    have hc := h c (List.mem_cons_self c rest)
    have hrest := ih (fun x hx => h x (List.mem_cons_of_mem c hx))
    rcases hc with hc | hc <;> subst hc <;> simpa [discoverPort] using hrest

theorem discoverPort_first_wins (pre : List Candidate) (p : Int)
    (rest : List Candidate)
    (h : ∀ c ∈ pre, c = Candidate.missing ∨ c = Candidate.unreadable) :
    discoverPort (pre ++ Candidate.port p :: rest) = some p := by
  induction pre with
  | nil => rfl
  | cons c pre0 ih =>
    have hc := h c (List.mem_cons_self c pre0)
    have hpre := ih (fun x hx => h x (List.mem_cons_of_mem c hx))
    rcases hc with hc | hc <;> subst hc <;> simpa [discoverPort] using hpre

theorem ensureConnected_events_cons (env : Env) (s : APIState)
    (h : wsConnected s.ws = false) :
    ∃ t, (ensureConnected env s).2.2 = Event.discover :: t := by
  unfold ensureConnected
  rw [if_neg (by simp [h])]
  unfold ensureAfterDiscover ensureAfterConnect
  rw [discoverStep_snd]
  split_ifs <;> exact ⟨_, rfl⟩

theorem sendCommand_head_discover (env : Env) (cmd : Command) (s : APIState)
    (h : wsConnected s.ws = false) :
    ((sendCommand env cmd s).2.2).head? = some Event.discover := by
  obtain ⟨t, ht⟩ := ensureConnected_events_cons env s h
  unfold sendCommand
  rcases hEq : ensureConnected env s with ⟨e, s1, ev1⟩
  rw [hEq] at ht
  simp only at ht
  cases e with
  | error ex => simp [ht]
  | ok u => rw [sendFinish_events, ht]; rfl

/-- An environment whose transport faults mid-send, for witnesses. -/
def faultEnv : Env :=
  { cands := [], connectOk := true, freshId := 0,
    sendOutcome := SendOutcome.fault "recv timed out" }

/-- An environment whose discovery succeeds at the second candidate and
whose connection attempt succeeds, for witnesses. -/
def reconnectEnv : Env :=
  { cands := [Candidate.missing, Candidate.port 9931], connectOk := true,
    freshId := 3, sendOutcome := SendOutcome.reply true none none }

/-- An environment whose service reports a missing element, for
witnesses. -/
def notFoundEnv : Env :=
  { cands := [Candidate.port 9931], connectOk := true, freshId := 0,
    sendOutcome := notFoundReply }

/-- An environment whose service replies with a non-list result to
`get_elements`, for witnesses. -/
def numResultEnv : Env :=
  { cands := [Candidate.port 9931], connectOk := true, freshId := 0,
    sendOutcome := SendOutcome.reply true (some (JValue.num 3)) none }

/-- An environment in which every candidate marker file fails, for
witnesses. -/
def allFailEnv : Env :=
  { cands := [Candidate.missing, Candidate.unreadable], connectOk := true,
    freshId := 0, sendOutcome := SendOutcome.reply true none none }

/-- C1: the claim says a `success=false` response raises a failure whose
message is exactly the remote-reported error string.  Counterexample: a
`draw_circle` answered with success `false` and error "duplicate id"
raises the catch-all wrapper message, which is not "duplicate id". -/
theorem C1_counterexample :
    (DrawingAPI.draw_circle dupIdEnv connectedState "c1" 10 20 5).1 =
      Except.error
        { msg := "Failed to communicate with VSCode extension: duplicate id" } ∧
    "Failed to communicate with VSCode extension: duplicate id" ≠
      "duplicate id" := by
  exact ⟨rfl, by decide⟩

/-- C1 (amended): when the remote replies with a decodable response whose
success field is false and whose error field is `msg`, the façade raises
a failure whose message is the communication-failure wrapper applied to
`msg` — the remote string is embedded after the fixed wrapper text, not
carried verbatim. -/
theorem C1_protocol_error_wrapped (env : Env) (s : APIState) (fp i : String)
    (x y radius : Int) (color : String) (r : Option JValue) (msg : String)
    (hfp : s.file_path = some fp) (hne : fp.isEmpty = false)
    (hws : wsConnected s.ws = true)
    (hout : env.sendOutcome = SendOutcome.reply false r (some msg)) :
    (DrawingAPI.draw_circle env s i x y radius color).1 =
      Except.error { msg := commFail msg } := by
  unfold DrawingAPI.draw_circle
  rw [hfp]
  dsimp only
  rw [if_neg (by simp [hne])]
  rw [sendCommand_connected _ _ _ hws]
  unfold sendFinish
  rw [hout]
  rfl

/-- C1 witness: the amended statement at the concrete rejected
`draw_circle` call. -/
theorem C1_protocol_error_wrapped_witness :
    (DrawingAPI.draw_circle dupIdEnv connectedState "c1" 10 20 5 "#000000").1 =
      Except.error { msg := commFail "duplicate id" } :=
  C1_protocol_error_wrapped dupIdEnv connectedState "/tmp/x.luke" "c1" 10 20 5
    "#000000" none "duplicate id" rfl (by decide) rfl rfl

/-- C2: every drawing/query operation invoked while Target State is
unset fails with the precondition exception, leaves the state unchanged,
and emits an empty trace — no discovery, no connection attempt, no
send. -/
theorem C2_precondition_no_network (env : Env) (s : APIState) (i : String)
    (x y radius width height : Int) (color : String)
    (h : s.file_path = none) :
    DrawingAPI.draw_circle env s i x y radius color =
      (Except.error noFileExn, s, []) ∧
    DrawingAPI.draw_rectangle env s i x y width height color =
      (Except.error noFileExn, s, []) ∧
    DrawingAPI.get_elements env s = (Except.error noFileExn, s, []) ∧
    DrawingAPI.get_element_by_id env s i = (Except.error noFileExn, s, []) := by
  unfold DrawingAPI.draw_circle DrawingAPI.draw_rectangle
    DrawingAPI.get_elements DrawingAPI.get_element_by_id
  rw [h]
  exact ⟨rfl, rfl, rfl, rfl⟩

/-- C2 witness: the four operations on a fresh unset state. -/
theorem C2_precondition_no_network_witness :
    DrawingAPI.draw_circle dupIdEnv initState "c1" 10 20 5 "#000000" =
      (Except.error noFileExn, initState, []) ∧
    DrawingAPI.draw_rectangle dupIdEnv initState "c1" 10 20 4 3 "#000000" =
      (Except.error noFileExn, initState, []) ∧
    DrawingAPI.get_elements dupIdEnv initState =
      (Except.error noFileExn, initState, []) ∧
    DrawingAPI.get_element_by_id dupIdEnv initState "c1" =
      (Except.error noFileExn, initState, []) :=
  C2_precondition_no_network dupIdEnv initState "c1" 10 20 5 4 3 "#000000" rfl

/-- C3: `set_file(path)` updates Target State before sending, so the
state after the call maps `file_path` to `path` whatever the send did —
success, remote rejection, transport fault, or connection failure. -/
theorem C3_set_file_sets_target (env : Env) (s : APIState) (p : String) :
    (DrawingAPI.set_file env s p).2.1.file_path = some p := by
  unfold DrawingAPI.set_file
  rw [sendCommand_file_path]

/-- C4: with a target set and a live transport, `get_element_by_id` on
an id the editor reports as absent returns the null absence marker and
does not raise. -/
theorem C4_get_element_by_id_not_found (env : Env) (s : APIState)
    (fp i : String) (hfp : s.file_path = some fp) (hne : fp.isEmpty = false)
    (hws : wsConnected s.ws = true)
    (hout : env.sendOutcome = notFoundReply) :
    (DrawingAPI.get_element_by_id env s i).1 = Except.ok JValue.null := by
  unfold DrawingAPI.get_element_by_id
  rw [hfp]
  dsimp only
  rw [if_neg (by simp [hne])]
  rw [sendCommand_connected _ _ _ hws]
  unfold sendFinish
  rw [hout]
  rfl

/-- C4 witness: a never-drawn id against the not-found reply. -/
theorem C4_get_element_by_id_not_found_witness :
    (DrawingAPI.get_element_by_id notFoundEnv connectedState "ghost").1 =
      Except.ok JValue.null :=
  C4_get_element_by_id_not_found notFoundEnv connectedState "/tmp/x.luke"
    "ghost" rfl (by decide) rfl rfl

/-- C5: a mid-send transport fault leaves the handle discarded
(`ws = None`), and the next operation from that state makes exactly one
discovery probe and one connection attempt, conversing over the freshly
created handle rather than any stale one: its trace is exactly
discovery, then one connect, then the send. -/
theorem C5_fault_discards_handle_single_reconnect
    (env env2 : Env) (cmd cmd2 : Command) (s : APIState) (m : String) (p : Int)
    (hws : wsConnected s.ws = true)
    (hout : env.sendOutcome = SendOutcome.fault m)
    (hdisc : discoverPort env2.cands = some p) (hp : p ≠ 0)
    (hok : env2.connectOk = true) :
    (sendCommand env cmd s).2.1.ws = none ∧
    (ensureConnected env2 (sendCommand env cmd s).2.1).2.1.ws =
      some { id := env2.freshId, connected := true } ∧
    (sendCommand env2 cmd2 (sendCommand env cmd s).2.1).2.2 =
      [Event.discover, Event.connectAttempt p, Event.send cmd2] := by
  have h1 : (sendCommand env cmd s).2.1 = { s with ws := none } := by
    rw [sendCommand_connected _ _ _ hws]
    unfold sendFinish
    rw [hout]
  have h1w : (sendCommand env cmd s).2.1.ws = none := by rw [h1]
  refine ⟨h1w, ?_, ?_⟩
  · rw [ensureConnected_reconnect env2 _ p h1w hdisc hp hok]
  · rw [sendCommand_events_of_ok env2 cmd2 _ _ _
      (ensureConnected_reconnect env2 _ p h1w hdisc hp hok)]
    rfl

/-- C5 witness: fault on a live session, then a reconnect through the
second marker candidate. -/
theorem C5_fault_discards_handle_single_reconnect_witness :
    (sendCommand faultEnv (Command.get_elements "/tmp/x.luke")
        connectedState).2.1.ws = none ∧
    (ensureConnected reconnectEnv
        (sendCommand faultEnv (Command.get_elements "/tmp/x.luke")
          connectedState).2.1).2.1.ws =
      some { id := 3, connected := true } ∧
    (sendCommand reconnectEnv (Command.get_elements "/tmp/x.luke")
        (sendCommand faultEnv (Command.get_elements "/tmp/x.luke")
          connectedState).2.1).2.2 =
      [Event.discover, Event.connectAttempt 9931,
       Event.send (Command.get_elements "/tmp/x.luke")] :=
  C5_fault_discards_handle_single_reconnect faultEnv reconnectEnv
    (Command.get_elements "/tmp/x.luke") (Command.get_elements "/tmp/x.luke")
    connectedState "recv timed out" 9931 rfl rfl rfl (by decide) rfl

/-- C6: discovery probes the candidates in their fixed order and returns
the port of the first candidate that exists and parses, skipping missing
and unparseable ones; when every candidate fails the result is absent
and the probing step completes without raising, leaving the state
untouched. -/
theorem C6_discovery_first_match_or_absent (pre rest cands2 : List Candidate)
    (p : Int) (s : APIState)
    (hpre : ∀ c ∈ pre, c = Candidate.missing ∨ c = Candidate.unreadable)
    (hall : ∀ c ∈ cands2, c = Candidate.missing ∨ c = Candidate.unreadable) :
    discoverPort (pre ++ Candidate.port p :: rest) = some p ∧
    discoverPort cands2 = none ∧
    discoverStep cands2 s = (s, [Event.discover]) := by
  refine ⟨discoverPort_first_wins pre p rest hpre,
    discoverPort_all_fail cands2 hall,
    discoverStep_eq_of_none cands2 s (discoverPort_all_fail cands2 hall)⟩

/-- C6 witness: two failing candidates before the parsing one, and a
fully failing list. -/
theorem C6_discovery_first_match_or_absent_witness :
    discoverPort
        ([Candidate.missing, Candidate.unreadable] ++
          Candidate.port 9931 :: [Candidate.port 7]) = some 9931 ∧
    discoverPort [Candidate.unreadable, Candidate.missing] = none ∧
    discoverStep [Candidate.unreadable, Candidate.missing] initState =
      (initState, [Event.discover]) :=
  C6_discovery_first_match_or_absent [Candidate.missing, Candidate.unreadable]
    [Candidate.port 7] [Candidate.unreadable, Candidate.missing] 9931 initState
    (by decide) (by decide)

/-- C7: with Target State "/tmp/x.luke" and a live session,
`draw_circle("c1",10,20,5)` with the color argument omitted sends exactly
one command, whose envelope is type `draw_circle`, the current target as
`file_path`, and the payload id "c1", x 10, y 20, radius 5 and the
defaulted color "#000000". -/
theorem C7_draw_circle_envelope (env : Env) (s : APIState)
    (hfp : s.file_path = some "/tmp/x.luke")
    (hws : wsConnected s.ws = true) :
    (DrawingAPI.draw_circle env s "c1" 10 20 5).2.2 =
      [Event.send (Command.draw_circle "/tmp/x.luke"
        { id := "c1", x := 10, y := 20, radius := 5, color := "#000000" })] ∧
    Command.fields (Command.draw_circle "/tmp/x.luke"
        { id := "c1", x := 10, y := 20, radius := 5, color := "#000000" }) =
      [("type", JValue.str "draw_circle"),
       ("file_path", JValue.str "/tmp/x.luke"),
       ("data", JValue.obj
         [("id", JValue.str "c1"), ("x", JValue.num 10),
          ("y", JValue.num 20), ("radius", JValue.num 5),
          ("color", JValue.str "#000000")])] := by
  constructor
  · unfold DrawingAPI.draw_circle
    rw [hfp]
    dsimp only
    rw [if_neg (by decide)]
    rw [sendCommand_events_of_ok env _ s s []
      (ensureConnected_of_connected env s hws)]
    rfl
  · rfl

/-- C7 witness: the connected state with the target set. -/
theorem C7_draw_circle_envelope_witness :
    (DrawingAPI.draw_circle dupIdEnv connectedState "c1" 10 20 5).2.2 =
      [Event.send (Command.draw_circle "/tmp/x.luke"
        { id := "c1", x := 10, y := 20, radius := 5, color := "#000000" })] ∧
    Command.fields (Command.draw_circle "/tmp/x.luke"
        { id := "c1", x := 10, y := 20, radius := 5, color := "#000000" }) =
      [("type", JValue.str "draw_circle"),
       ("file_path", JValue.str "/tmp/x.luke"),
       ("data", JValue.obj
         [("id", JValue.str "c1"), ("x", JValue.num 10),
          ("y", JValue.num 20), ("radius", JValue.num 5),
          ("color", JValue.str "#000000")])] :=
  C7_draw_circle_envelope dupIdEnv connectedState rfl rfl

/-- C8: a decoded successful `get_elements` response returns the
source's coercion of the unwrapped result rather than raising; the
coercion returns a list result as-is and sends any non-list value to the
empty list. -/
theorem C8_get_elements_coerces (env : Env) (s : APIState) (fp : String)
    (r v : JValue) (xs : List JValue) (e : Option String)
    (hfp : s.file_path = some fp) (hne : fp.isEmpty = false)
    (hws : wsConnected s.ws = true)
    (hout : env.sendOutcome = SendOutcome.reply true (some r) e)
    (hv : ∀ ys, v ≠ JValue.arr ys) :
    (DrawingAPI.get_elements env s).1 = Except.ok (coerceToList r) ∧
    coerceToList (JValue.arr xs) = JValue.arr xs ∧
    coerceToList v = JValue.arr [] := by
  refine ⟨?_, rfl, ?_⟩
  · unfold DrawingAPI.get_elements
    rw [hfp]
    dsimp only
    rw [if_neg (by simp [hne])]
    rw [sendCommand_connected _ _ _ hws]
    unfold sendFinish
    rw [hout]
    rfl
  · cases v with
    | arr ys => exact absurd rfl (hv ys)
    | null => rfl
    | bool b => rfl
    | num n => rfl
    | str t => rfl
    | obj fs => rfl

/-- C8 witness: a numeric (non-list) result is coerced to the empty
list. -/
theorem C8_get_elements_coerces_witness :
    (DrawingAPI.get_elements numResultEnv connectedState).1 =
      Except.ok (coerceToList (JValue.num 3)) ∧
    coerceToList (JValue.arr [JValue.num 1]) = JValue.arr [JValue.num 1] ∧
    coerceToList (JValue.num 3) = JValue.arr [] :=
  C8_get_elements_coerces numResultEnv connectedState "/tmp/x.luke"
    (JValue.num 3) (JValue.num 3) [JValue.num 1] none rfl (by decide) rfl rfl
    (fun ys h => JValue.noConfusion h)

/-- C9: constructing the object performs exactly one discovery probe, no
connection attempt and no send, cannot raise, and leaves the handle and
Target State unset; when every candidate fails the port also stays
absent, and the failure then surfaces as the endpoint-not-found error on
the first subsequent command. -/
theorem C9_init_discovers_once_never_connects (cands cands2 : List Candidate)
    (env2 : Env) (cmd2 : Command)
    (hall : ∀ c ∈ cands, c = Candidate.missing ∨ c = Candidate.unreadable)
    (henv : env2.cands = cands) :
    (DrawingAPI.init cands2).2 = [Event.discover] ∧
    (DrawingAPI.init cands2).1.ws = none ∧
    (DrawingAPI.init cands2).1.file_path = none ∧
    DrawingAPI.init cands = (initState, [Event.discover]) ∧
    (sendCommand env2 cmd2 (DrawingAPI.init cands).1).1 =
      Except.error
        { msg := "VSCode extension WebSocket server not found. Make sure the extension is running." } := by
  have hd : discoverPort env2.cands = none := by
    rw [henv]
    exact discoverPort_all_fail cands hall
  have h4 : DrawingAPI.init cands = (initState, [Event.discover]) := by
    unfold DrawingAPI.init
    exact discoverStep_eq_of_none cands _ (discoverPort_all_fail cands hall)
  have hens : ensureConnected env2 initState =
      (Except.error
        { msg := "VSCode extension WebSocket server not found. Make sure the extension is running." },
       initState, [Event.discover]) := by
    unfold ensureConnected
    rw [if_neg (by decide)]
    rw [discoverStep_eq_of_none env2.cands initState hd]
    unfold ensureAfterDiscover
    dsimp only
    rw [if_neg (by decide)]
  have h5 : (sendCommand env2 cmd2 initState).1 =
      Except.error
        { msg := "VSCode extension WebSocket server not found. Make sure the extension is running." } := by
    unfold sendCommand
    rw [hens]
  refine ⟨?_, ?_, ?_, h4, ?_⟩
  · exact discoverStep_snd cands2 _
  · exact discoverStep_ws cands2 _
  · exact discoverStep_file_path cands2 _
  · rw [show (DrawingAPI.init cands).1 = initState from by rw [h4]]
    exact h5

/-- C9 witness: an all-failing candidate list, a succeeding one, and the
first command after a failed construction. -/
theorem C9_init_discovers_once_never_connects_witness :
    (DrawingAPI.init [Candidate.port 9931]).2 = [Event.discover] ∧
    (DrawingAPI.init [Candidate.port 9931]).1.ws = none ∧
    (DrawingAPI.init [Candidate.port 9931]).1.file_path = none ∧
    DrawingAPI.init [Candidate.missing, Candidate.unreadable] =
      (initState, [Event.discover]) ∧
    (sendCommand allFailEnv Command.get_active_file
        (DrawingAPI.init [Candidate.missing, Candidate.unreadable]).1).1 =
      Except.error
        { msg := "VSCode extension WebSocket server not found. Make sure the extension is running." } :=
  C9_init_discovers_once_never_connects
    [Candidate.missing, Candidate.unreadable] [Candidate.port 9931]
    allFailEnv Command.get_active_file (by decide) rfl

/-- C10: a decoded response with a falsy success field also tears the
session down: the handle is closed and discarded before the failure is
raised, so the next operation — even though the rejection arrived over an
intact connection — starts with a fresh discovery probe. -/
theorem C10_reject_discards_handle (env env2 : Env) (cmd cmd2 : Command)
    (s : APIState) (r : Option JValue) (e : Option String)
    (hws : wsConnected s.ws = true)
    (hout : env.sendOutcome = SendOutcome.reply false r e) :
    (sendCommand env cmd s).2.1.ws = none ∧
    (sendCommand env cmd s).1 =
      Except.error { msg := commFail (e.getD "Unknown error") } ∧
    ((sendCommand env2 cmd2 (sendCommand env cmd s).2.1).2.2).head? =
      some Event.discover := by
  have key : sendCommand env cmd s =
      (Except.error { msg := commFail (e.getD "Unknown error") },
       { s with ws := none }, [Event.send cmd]) := by
    rw [sendCommand_connected _ _ _ hws]
    unfold sendFinish
    rw [hout]
    rfl
  refine ⟨by rw [key], by rw [key], ?_⟩
  rw [key]
  exact sendCommand_head_discover env2 cmd2 _ rfl

/-- C10 witness: the "duplicate id" rejection on a live session, then
any next command. -/
theorem C10_reject_discards_handle_witness :
    (sendCommand dupIdEnv (Command.get_elements "/tmp/x.luke")
        connectedState).2.1.ws = none ∧
    (sendCommand dupIdEnv (Command.get_elements "/tmp/x.luke")
        connectedState).1 =
      Except.error { msg := commFail ((some "duplicate id").getD "Unknown error") } ∧
    ((sendCommand reconnectEnv Command.get_active_file
        (sendCommand dupIdEnv (Command.get_elements "/tmp/x.luke")
          connectedState).2.1).2.2).head? =
      some Event.discover :=
  C10_reject_discards_handle dupIdEnv reconnectEnv
    (Command.get_elements "/tmp/x.luke") Command.get_active_file
    connectedState none (some "duplicate id") rfl rfl

end DrawingApiModel
